import Mathlib

/-!
Shallow embedding of the extraction-and-summarization pipeline of
`claim_explainer_app.py` (insurance-claim explanation app).

The pipeline's own logic is pure control flow around three external
capabilities (pdfplumber text layer, DocTR OCR, transformers summarizer).
We model each capability's answer as data supplied in an `Env`, and model
exceptions raised by capabilities with `Except`: the Python code contains
no `try`/`except`, so every capability error propagates by monadic-style
early return.  Each embedded function additionally reports which
capabilities it invoked, so that "never invokes OCR"-style properties are
statable.
-/

/-- Python `str.strip()` whitespace set (the ASCII whitespace characters;
the claims only exercise these). `\x0b` is vertical tab, `\x0c` form feed. -/
def isPySpace (c : Char) : Bool :=
  c = ' ' || c = '\t' || c = '\n' || c = '\r' || c = Char.ofNat 11 || c = Char.ofNat 12

/-- Python `s.strip()`: drop leading and trailing whitespace. -/
def pyStrip (s : String) : String :=
  String.mk (((s.toList.dropWhile isPySpace).reverse.dropWhile isPySpace).reverse)

/-- Python `s[:n]`: the first `n` characters (code points) of `s`. -/
def pyTake (s : String) (n : Nat) : String :=
  String.mk (s.toList.take n)

/-- Python `s.lower()` restricted to ASCII letters (the five supported
extensions are ASCII, so this is the relevant fragment). -/
def pyLower (s : String) : String :=
  String.mk (s.toList.map Char.toLower)

/-- `pathlib.Path(p).suffix`: the extension of the final path component,
including the dot; empty when the final component has no dot, starts with
its only dot, or ends with the dot.  (Paths without a trailing slash,
which is all the pipeline ever builds.) -/
def pathSuffix (p : String) : String :=
  let name := (p.toList.reverse.takeWhile (fun c => c != '/')).reverse
  let tail := name.reverse.takeWhile (fun c => c != '.')
  if tail.length > 0 && tail.length + 1 < name.length then
    String.mk ('.' :: tail.reverse)
  else
    ""

/-- Exceptions a capability can raise (the pipeline itself never raises). -/
inductive PyErr : Type where
  | ocrError : PyErr
  | summError : PyErr
  | unicodeDecodeError : PyErr
  deriving DecidableEq, Repr

instance {ε α : Type} [DecidableEq ε] [DecidableEq α] : DecidableEq (Except ε α) := fun a b =>
  match a, b with
  | .ok x, .ok y =>
    if h : x = y then isTrue (congrArg Except.ok h)
    else isFalse (fun hc => h (Except.ok.inj hc))
  | .ok _, .error _ => isFalse (fun hc => Except.noConfusion hc)
  | .error _, .ok _ => isFalse (fun hc => Except.noConfusion hc)
  | .error x, .error y =>
    if h : x = y then isTrue (congrArg Except.error h)
    else isFalse (fun hc => h (Except.error.inj hc))

/-- A PDF as the pipeline observes it: `pages` is what
`page.extract_text()` yields per page (`none` = no text layer on the
page), `ocrText` the result of `ocr_model(DocumentFile.from_pdf(...)).render()`
(or the exception that call raises). -/
structure PdfDoc : Type where
  pages : List (Option String)
  ocrText : Except PyErr String
  deriving DecidableEq

/-- The external world of one `process_claim_file` invocation: the
capabilities' answers for the one file behind the path. -/
structure Env : Type where
  pdf : PdfDoc
  imageOcr : Except PyErr String
  txtBytes : List Nat
  summ : String → Except PyErr String

/-- Which capabilities a run of the pipeline invoked. -/
structure Calls : Type where
  ocrInvoked : Bool
  summInvoked : Bool
  deriving DecidableEq, Repr

/-- The `text = ""; for page in pdf.pages: ... if page_text: text += page_text`
loop of `extract_text_from_pdf`: concatenate per-page text in document
order, skipping pages whose extraction is `None` or empty (Python
truthiness). -/
def concatPages (pages : List (Option String)) : String :=
  pages.foldl
    (fun acc p =>
      match p with
      | none => acc
      | some t => if t = "" then acc else acc ++ t)
    ""

/-- `extract_text_from_pdf`: direct text-layer extraction; if the
concatenation is non-empty after stripping, return the stripped text,
else fall back to OCR.  Second component: whether OCR was invoked. -/
def extract_text_from_pdf (doc : PdfDoc) : Except PyErr String × Bool :=
  let text := concatPages doc.pages
  if pyStrip text ≠ "" then
    (.ok (pyStrip text), false)
  else
    (doc.ocrText, true)

/-- `extract_text_from_image`: always OCR.  Second component: OCR invoked. -/
def extract_text_from_image (ocrText : Except PyErr String) : Except PyErr String × Bool :=
  (ocrText, true)

/-- `summarize_claim`: short-circuit on whitespace-only input, else
truncate to 3000 characters, call the summarization capability, and strip
its `summary_text`.  `summ` is the capability; the second component
records whether it was invoked. -/
def summarize_claim (summ : String → Except PyErr String) (text : String) :
    Except PyErr String × Bool :=
  if pyStrip text = "" then
    (.ok "⚠️ No text detected in the document.", false)
  else
    ((summ (pyTake text 3000)).map pyStrip, true)

/-- The summarizer pipeline call with the arguments the code passes:
`summarizer(text, max_length=130, min_length=40, do_sample=False)`.
`cap` is the underlying model taking (text, max_length, min_length,
do_sample, sampling seed); the seed models the randomness a sampling
decode would consume. -/
def summarizer_call (cap : String → Nat → Nat → Bool → Nat → Except PyErr String)
    (seed : Nat) (text : String) : Except PyErr String :=
  cap text 130 40 false seed

/-- `summarize_claim` with the capability's sampling seed made explicit,
for the determinism claim. -/
def summarize_claim_seeded (cap : String → Nat → Nat → Bool → Nat → Except PyErr String)
    (seed : Nat) (text : String) : Except PyErr String × Bool :=
  summarize_claim (summarizer_call cap seed) text

/-- One step of strict UTF-8 decoding as Python's `utf-8` codec performs
it: decode the first scalar, rejecting lone continuation bytes, truncated
sequences, overlong encodings, surrogates and values above `0x10FFFF`. -/
def utf8DecodeStep (b : Nat) (rest : List Nat) : Option (Char × List Nat) :=
  if b ≤ 0x7F then
    some (Char.ofNat b, rest)
  else if b ≤ 0xC1 then
    none
  else if b ≤ 0xDF then
    match rest with
    | c1 :: rest1 =>
      if 0x80 ≤ c1 && c1 ≤ 0xBF then
        some (Char.ofNat ((b - 0xC0) * 0x40 + (c1 - 0x80)), rest1)
      else none
    | [] => none
  else if b ≤ 0xEF then
    match rest with
    | c1 :: c2 :: rest2 =>
      if 0x80 ≤ c1 && c1 ≤ 0xBF && (0x80 ≤ c2 && c2 ≤ 0xBF) then
        let cp := (b - 0xE0) * 0x1000 + (c1 - 0x80) * 0x40 + (c2 - 0x80)
        if 0x800 ≤ cp && ¬ (0xD800 ≤ cp && cp ≤ 0xDFFF) then
          some (Char.ofNat cp, rest2)
        else none
      else none
    | _ => none
  else if b ≤ 0xF4 then
    match rest with
    | c1 :: c2 :: c3 :: rest3 =>
      if 0x80 ≤ c1 && c1 ≤ 0xBF && (0x80 ≤ c2 && c2 ≤ 0xBF) && (0x80 ≤ c3 && c3 ≤ 0xBF) then
        let cp := (b - 0xF0) * 0x40000 + (c1 - 0x80) * 0x1000 + (c2 - 0x80) * 0x40 + (c3 - 0x80)
        if 0x10000 ≤ cp && cp ≤ 0x10FFFF then
          some (Char.ofNat cp, rest3)
        else none
      else none
    | _ => none
  else
    none

/-- Strict UTF-8 decoding of a byte list, `none` on any invalid input
(Python raises `UnicodeDecodeError` there). Fuel-driven; `utf8Decode`
supplies fuel `= length`, enough since each step consumes ≥ 1 byte. -/
def utf8DecodeAux : Nat → List Nat → Option (List Char)
  | _, [] => some []
  | 0, _ :: _ => none
  | fuel + 1, b :: rest =>
    match utf8DecodeStep b rest with
    | none => none
    | some (c, rest') =>
      match utf8DecodeAux fuel rest' with
      | none => none
      | some cs => some (c :: cs)

/-- Strict UTF-8 decoding, as `open(path, "r", encoding="utf-8").read()`
performs on the file's bytes. -/
def utf8Decode (bytes : List Nat) : Option (List Char) :=
  utf8DecodeAux bytes.length bytes

/-- Lines 123-125 of `process_claim_file`: the post-extraction guard and
the summarization call.  `ocrUsed` carries the invocation flag from the
extraction stage. -/
def finishClaim (env : Env) (raw_text : String) (ocrUsed : Bool) :
    Except PyErr String × Calls :=
  if pyStrip raw_text = "" then
    (.ok "⚠️ Could not extract any readable text.", ⟨ocrUsed, false⟩)
  else
    match summarize_claim env.summ raw_text with
    | (r, used) => (r, ⟨ocrUsed, used⟩)

/-- `process_claim_file`: dispatch on the lowercased path suffix, extract,
then guard and summarize.  An `.error` result is an uncaught Python
exception propagating to the caller. -/
def process_claim_file (env : Env) (path : String) : Except PyErr String × Calls :=
  let file_ext := pyLower (pathSuffix path)
  if file_ext = ".pdf" then
    match extract_text_from_pdf env.pdf with
    | (.error e, used) => (.error e, ⟨used, false⟩)
    | (.ok raw_text, used) => finishClaim env raw_text used
  else if file_ext ∈ ([".jpg", ".jpeg", ".png"] : List String) then
    match extract_text_from_image env.imageOcr with
    | (.error e, used) => (.error e, ⟨used, false⟩)
    | (.ok raw_text, used) => finishClaim env raw_text used
  else if file_ext = ".txt" then
    match utf8Decode env.txtBytes with
    | none => (.error .unicodeDecodeError, ⟨false, false⟩)
    | some cs => finishClaim env (String.mk cs) false
  else
    (.ok "⚠️ Unsupported file type.", ⟨false, false⟩)

/-- The extraction stage of `process_claim_file` in isolation: the raw
text (or propagated exception) the dispatch on the suffix produces,
`none` for unsupported suffixes. -/
def rawTextOf (env : Env) (path : String) : Option (Except PyErr String) :=
  let file_ext := pyLower (pathSuffix path)
  if file_ext = ".pdf" then
    some (extract_text_from_pdf env.pdf).1
  else if file_ext ∈ ([".jpg", ".jpeg", ".png"] : List String) then
    some (extract_text_from_image env.imageOcr).1
  else if file_ext = ".txt" then
    some (match utf8Decode env.txtBytes with
          | none => .error .unicodeDecodeError
          | some cs => .ok (String.mk cs))
  else
    none

/-- The OCR-invocation flag of the extraction stage of
`process_claim_file`. -/
def ocrUsedOf (env : Env) (path : String) : Bool :=
  let file_ext := pyLower (pathSuffix path)
  if file_ext = ".pdf" then
    (extract_text_from_pdf env.pdf).2
  else if file_ext ∈ ([".jpg", ".jpeg", ".png"] : List String) then
    true
  else
    false

/-- The file-upload branch of the UI (lines 148-162): stage the upload in
a temp file, run the pipeline when the button is pressed, then
`os.remove` the temp file — but only if no exception propagated, since
there is no `try`/`finally`.  Second component: whether the temp file was
deleted before the branch exited. -/
def upload_branch (env : Env) (path : String) (buttonPressed : Bool) :
    Except PyErr Unit × Bool :=
  if buttonPressed then
    match (process_claim_file env path).1 with
    | .error e => (.error e, false)
    | .ok _ => (.ok (), true)
  else
    (.ok (), true)

/-! Concrete inputs used by witnesses and counterexamples. -/

/-- A PDF whose text layer carries surrounding whitespace. -/
def pdfPadded : PdfDoc := ⟨[some " hello ", none, some "world"], .ok "OCRTEXT"⟩

/-- A scanned PDF: no text layer on any page, OCR yields the empty string. -/
def pdfScanned : PdfDoc := ⟨[none, some ""], .ok ""⟩

/-- A scanned PDF on which the OCR capability raises. -/
def pdfOcrFails : PdfDoc := ⟨[none], .error .ocrError⟩

/-- An environment whose PDF triggers the OCR fallback and whose OCR raises. -/
def envOcrFail : Env := ⟨pdfOcrFails, .ok "", [], fun _ => .ok "S"⟩

/-- An environment whose text file holds only whitespace (space, tab). -/
def envTxtSpace : Env := ⟨⟨[], .ok ""⟩, .ok "", [0x20, 0x09], fun _ => .ok "S"⟩

/-- An environment whose text file holds the two bytes of "hi". -/
def envTxtHello : Env := ⟨⟨[], .ok ""⟩, .ok "", [0x68, 0x69], fun s => .ok ("S: " ++ s)⟩

/-- An environment whose text file holds a byte that is not valid UTF-8. -/
def envTxtBad : Env := ⟨⟨[], .ok ""⟩, .ok "", [0xFF], fun _ => .ok "S"⟩

/-- A generic concrete environment, for claims that hold for any file. -/
def envDemo : Env := ⟨⟨[some "text"], .ok "ocr"⟩, .ok "img", [0x68], fun s => .ok s⟩

/-- A summarization capability returning a fixed summary. -/
def summConst : String → Except PyErr String := fun _ => .ok "SUMMARY"

/-- A seed-ignoring summarization model that echoes its input. -/
def capEcho : String → Nat → Nat → Bool → Nat → Except PyErr String := fun t _ _ _ _ => .ok t

/-- 3000 spaces: whitespace-only, exactly at the truncation bound. -/
def wsText : String := String.mk (List.replicate 3000 ' ')

/-- 3000 spaces followed by one visible character beyond the bound. -/
def wsTextX : String := String.mk (List.replicate 3000 ' ' ++ ['x'])

/-- 3000 letters and then a final character `Y` beyond the bound. -/
def claimTextA : String := String.mk (List.replicate 3000 'a' ++ ['Y'])

/-- 3000 letters and then a final character `Z` beyond the bound. -/
def claimTextB : String := String.mk (List.replicate 3000 'a' ++ ['Z'])

/-! Helper lemmas. -/

theorem toList_mk (l : List Char) : (String.mk l).toList = l := rfl

theorem dropWhile_replicate_append_of_pos (p : Char → Bool) (a : Char) (h : p a = true)
    (l : List Char) : ∀ n, List.dropWhile p (List.replicate n a ++ l) = List.dropWhile p l := by
  intro n
  induction n with
  | zero => rfl
  | succ n ih => simp [List.replicate_succ, List.dropWhile_cons, h, ih]

theorem take_replicate_append (a : Char) (l : List Char) (n : Nat) :
    List.take n (List.replicate n a ++ l) = List.replicate n a := by
  induction n with
  | zero => rfl
  | succ n ih => simp [List.replicate_succ, ih]

theorem take_replicate_self (a : Char) (n : Nat) :
    List.take n (List.replicate n a) = List.replicate n a := by
  have h := take_replicate_append a [] n
  rw [List.append_nil] at h
  exact h

theorem dropWhile_eq_self_of_forall (p : Char → Bool) :
    ∀ l : List Char, (∀ c ∈ l, p c = false) → List.dropWhile p l = l := by
  intro l h
  induction l with
  | nil => rfl
  | cons c t ih =>
    rw [List.dropWhile_cons, h c (List.mem_cons_self c t)]
    simp only [Bool.false_eq_true, if_false]

theorem pyStrip_mk_of_no_space (l : List Char) (h : ∀ c ∈ l, isPySpace c = false) :
    pyStrip (String.mk l) = String.mk l := by
  unfold pyStrip
  rw [toList_mk, dropWhile_eq_self_of_forall _ l h,
    dropWhile_eq_self_of_forall _ l.reverse (fun c hc => h c (List.mem_reverse.mp hc)),
    List.reverse_reverse]

theorem mk_ne_empty (l : List Char) (h : l ≠ []) : String.mk l ≠ "" := by
  intro hc
  exact h (congrArg String.toList hc)

theorem pyStrip_wsText : pyStrip wsText = "" := by
  unfold pyStrip wsText
  rw [toList_mk,
    show (List.replicate 3000 ' ' : List Char) = List.replicate 3000 ' ' ++ [] from
      (List.append_nil _).symm,
    dropWhile_replicate_append_of_pos isPySpace ' ' (by decide)]
  rfl

theorem pyStrip_wsTextX : pyStrip wsTextX = "x" := by
  unfold pyStrip wsTextX
  rw [toList_mk, dropWhile_replicate_append_of_pos isPySpace ' ' (by decide)]
  rfl

theorem pyTake_wsText : pyTake wsText 3000 = String.mk (List.replicate 3000 ' ') := by
  unfold pyTake wsText
  rw [toList_mk, take_replicate_self]

theorem pyTake_wsTextX : pyTake wsTextX 3000 = String.mk (List.replicate 3000 ' ') := by
  unfold pyTake wsTextX
  rw [toList_mk, take_replicate_append]

theorem pyTake_claimTextA : pyTake claimTextA 3000 = String.mk (List.replicate 3000 'a') := by
  unfold pyTake claimTextA
  rw [toList_mk, take_replicate_append]

theorem pyTake_claimTextB : pyTake claimTextB 3000 = String.mk (List.replicate 3000 'a') := by
  unfold pyTake claimTextB
  rw [toList_mk, take_replicate_append]

theorem no_space_in_claimText (z : Char) (hz : isPySpace z = false) :
    ∀ c ∈ List.replicate 3000 'a' ++ [z], isPySpace c = false := by
  intro c hc
  rcases List.mem_append.mp hc with h | h
  · rw [List.eq_of_mem_replicate h]; decide
  · rw [List.mem_singleton.mp h]; exact hz

theorem replicate_append_singleton_ne_nil (a z : Char) :
    List.replicate 3000 a ++ [z] ≠ [] := by
  intro h
  have hl := congrArg List.length h
  rw [List.length_append, List.length_replicate] at hl
  simp at hl

theorem pyStrip_claimTextA_ne : pyStrip claimTextA ≠ "" := by
  unfold claimTextA
  rw [pyStrip_mk_of_no_space _ (no_space_in_claimText 'Y' (by decide))]
  exact mk_ne_empty _ (replicate_append_singleton_ne_nil 'a' 'Y')

theorem pyStrip_claimTextB_ne : pyStrip claimTextB ≠ "" := by
  unfold claimTextB
  rw [pyStrip_mk_of_no_space _ (no_space_in_claimText 'Z' (by decide))]
  exact mk_ne_empty _ (replicate_append_singleton_ne_nil 'a' 'Z')

/-- `process_claim_file` factored through its extraction stage: the
dispatch over the suffix yields `rawTextOf`, with OCR flag `ocrUsedOf`,
then the guard-and-summarize tail runs. -/
theorem process_claim_file_cases (env : Env) (path : String) :
    process_claim_file env path =
      match rawTextOf env path with
      | none => (.ok "⚠️ Unsupported file type.", ⟨false, false⟩)
      | some (.error e) => (.error e, ⟨ocrUsedOf env path, false⟩)
      | some (.ok raw) => finishClaim env raw (ocrUsedOf env path) := by
  unfold process_claim_file rawTextOf ocrUsedOf
  by_cases h1 : pyLower (pathSuffix path) = ".pdf"
  · simp only [h1, if_pos rfl]
    rcases hpdf : extract_text_from_pdf env.pdf with ⟨r, u⟩
    cases r <;> rfl
  · rw [if_neg h1, if_neg h1, if_neg h1]
    by_cases h2 : pyLower (pathSuffix path) ∈ ([".jpg", ".jpeg", ".png"] : List String)
    · rw [if_pos h2, if_pos h2, if_pos h2]
      cases henv : env.imageOcr <;> rfl
    · rw [if_neg h2, if_neg h2, if_neg h2]
      by_cases h3 : pyLower (pathSuffix path) = ".txt"
      · rw [if_pos h3, if_pos h3]
        cases hdec : utf8Decode env.txtBytes <;> rfl
      · rw [if_neg h3, if_neg h3]

theorem process_of_extract_error (env : Env) (path : String) (e : PyErr)
    (h : rawTextOf env path = some (.error e)) :
    process_claim_file env path = (.error e, ⟨ocrUsedOf env path, false⟩) := by
  rw [process_claim_file_cases, h]

theorem process_of_extract_ok (env : Env) (path : String) (raw : String)
    (h : rawTextOf env path = some (.ok raw)) :
    process_claim_file env path = finishClaim env raw (ocrUsedOf env path) := by
  rw [process_claim_file_cases, h]

theorem process_of_unsupported (env : Env) (path : String)
    (h : rawTextOf env path = none) :
    process_claim_file env path = (.ok "⚠️ Unsupported file type.", ⟨false, false⟩) := by
  rw [process_claim_file_cases, h]

/-! Claim theorems. -/

/-- C1, counterexample: a PDF whose concatenated text layer `" hello world"`
is non-empty after trimming is answered with the trimmed text, not with
the concatenation itself, so the dispatcher does not return "that text"
verbatim. -/
theorem pdf_text_layer_not_verbatim :
    pyStrip (concatPages pdfPadded.pages) ≠ "" ∧
    (extract_text_from_pdf pdfPadded).1 ≠ .ok (concatPages pdfPadded.pages) := by
  decide

/-- C1 (amended): for every PDF input whose direct text-layer extraction,
concatenated over all pages in document order, is non-empty after
trimming whitespace, the dispatcher returns that text with leading and
trailing whitespace stripped, and never invokes the OCR capability. -/
theorem pdf_text_layer_no_ocr (doc : PdfDoc)
    (h : pyStrip (concatPages doc.pages) ≠ "") :
    extract_text_from_pdf doc = (.ok (pyStrip (concatPages doc.pages)), false) := by
  simp [extract_text_from_pdf, h]

theorem pdf_text_layer_no_ocr_witness :
    extract_text_from_pdf pdfPadded = (.ok (pyStrip (concatPages pdfPadded.pages)), false) :=
  pdf_text_layer_no_ocr pdfPadded (by decide)

/-- C2: for every PDF input whose concatenated direct text-layer
extraction is empty or whitespace-only, the dispatcher invokes the OCR
capability and returns its rendered output verbatim (even when empty, or
when the OCR call itself raises). -/
theorem pdf_empty_layer_falls_back_to_ocr (doc : PdfDoc)
    (h : pyStrip (concatPages doc.pages) = "") :
    extract_text_from_pdf doc = (doc.ocrText, true) := by
  simp [extract_text_from_pdf, h]

theorem pdf_empty_layer_falls_back_to_ocr_witness :
    extract_text_from_pdf pdfScanned = (pdfScanned.ocrText, true) :=
  pdf_empty_layer_falls_back_to_ocr pdfScanned (by decide)

/-- C3, counterexample: two inputs that agree on their first 3000
characters (3000 spaces) but differ at offset 3000 are summarized
differently — the whitespace guard inspects the whole string before
truncation, so the character beyond offset 3000 decides which branch
runs. -/
theorem truncation_counterexample :
    pyTake wsText 3000 = pyTake wsTextX 3000 ∧
    summarize_claim summConst wsText ≠ summarize_claim summConst wsTextX := by
  constructor
  · rw [pyTake_wsText, pyTake_wsTextX]
  · have h1 : summarize_claim summConst wsText =
        (.ok "⚠️ No text detected in the document.", false) := by
      simp [summarize_claim, pyStrip_wsText]
    have h2 : summarize_claim summConst wsTextX = (.ok "SUMMARY", true) := by
      unfold summarize_claim
      rw [if_neg (by rw [pyStrip_wsTextX]; decide)]
      rfl
    rw [h1, h2]
    decide

/-- C3 (amended): for every pair of input texts that agree on their first
3000 characters and agree on whether they are whitespace-only,
`summarize_claim` produces the same result for every summarization
capability; in particular only the first 3000 characters are ever passed
to the capability. -/
theorem truncation_hyperproperty (summ : String → Except PyErr String) (t1 t2 : String)
    (htake : pyTake t1 3000 = pyTake t2 3000)
    (hws : (pyStrip t1 = "" ∧ pyStrip t2 = "") ∨ (pyStrip t1 ≠ "" ∧ pyStrip t2 ≠ "")) :
    summarize_claim summ t1 = summarize_claim summ t2 := by
  rcases hws with ⟨h1, h2⟩ | ⟨h1, h2⟩
  · simp [summarize_claim, h1, h2]
  · simp [summarize_claim, h1, h2, htake]

theorem truncation_hyperproperty_witness :
    summarize_claim summConst claimTextA = summarize_claim summConst claimTextB :=
  truncation_hyperproperty summConst claimTextA claimTextB
    (by rw [pyTake_claimTextA, pyTake_claimTextB])
    (Or.inr ⟨pyStrip_claimTextA_ne, pyStrip_claimTextB_ne⟩)

/-- C4: empty or whitespace-only input makes `summarize_claim` return the
fixed warning without invoking the summarization capability, and in the
pipeline a whitespace-only extraction short-circuits before
`summarize_claim`, so such text never reaches the capability. -/
theorem empty_text_short_circuit :
    (∀ (summ : String → Except PyErr String) (text : String), pyStrip text = "" →
      summarize_claim summ text = (.ok "⚠️ No text detected in the document.", false)) ∧
    (∀ (env : Env) (path : String) (raw : String),
      rawTextOf env path = some (.ok raw) → pyStrip raw = "" →
      process_claim_file env path =
        (.ok "⚠️ Could not extract any readable text.", ⟨ocrUsedOf env path, false⟩)) := by
  constructor
  · intro summ text h
    simp [summarize_claim, h]
  · intro env path raw h hws
    rw [process_of_extract_ok env path raw h]
    simp [finishClaim, hws]

theorem empty_text_short_circuit_witness :
    summarize_claim summConst " \t " = (.ok "⚠️ No text detected in the document.", false) ∧
    process_claim_file envTxtSpace "claim.txt" =
      (.ok "⚠️ Could not extract any readable text.", ⟨ocrUsedOf envTxtSpace "claim.txt", false⟩) :=
  ⟨empty_text_short_circuit.1 summConst " \t " (by decide),
   empty_text_short_circuit.2 envTxtSpace "claim.txt" (String.mk [' ', '\t'])
     (by decide) (by decide)⟩

/-- C5: for every file path whose lowercased suffix is not one of `.pdf`,
`.jpg`, `.jpeg`, `.png`, `.txt`, `process_claim_file` returns exactly the
"unsupported file type" sentinel, raises nothing, and invokes no
extraction or summarization capability. -/
theorem unsupported_type_sentinel (env : Env) (path : String)
    (h : pyLower (pathSuffix path) ∉ ([".pdf", ".jpg", ".jpeg", ".png", ".txt"] : List String)) :
    process_claim_file env path = (.ok "⚠️ Unsupported file type.", ⟨false, false⟩) := by
  apply process_of_unsupported
  unfold rawTextOf
  have h1 : pyLower (pathSuffix path) ≠ ".pdf" := by
    intro hc; exact h (by rw [hc]; decide)
  have h2 : pyLower (pathSuffix path) ∉ ([".jpg", ".jpeg", ".png"] : List String) := by
    intro hc
    apply h
    simp only [List.mem_cons, List.not_mem_nil, or_false] at hc
    rcases hc with hc | hc | hc <;> rw [hc] <;> decide
  have h3 : pyLower (pathSuffix path) ≠ ".txt" := by
    intro hc; exact h (by rw [hc]; decide)
  rw [if_neg h1, if_neg h2, if_neg h3]

theorem unsupported_type_sentinel_witness :
    process_claim_file envDemo "claim.docx" = (.ok "⚠️ Unsupported file type.", ⟨false, false⟩) :=
  unsupported_type_sentinel envDemo "claim.docx" (by decide)

/-- C6: a failure raised by the OCR capability (reaching the extraction
stage) or by the summarization capability propagates unchanged out of
`process_claim_file`; no sentinel or partial summary replaces it. -/
theorem model_failure_propagates :
    (∀ (env : Env) (path : String) (e : PyErr),
      rawTextOf env path = some (.error e) →
      (process_claim_file env path).1 = .error e) ∧
    (∀ (env : Env) (path : String) (raw : String) (e : PyErr),
      rawTextOf env path = some (.ok raw) → pyStrip raw ≠ "" →
      env.summ (pyTake raw 3000) = .error e →
      (process_claim_file env path).1 = .error e) := by
  constructor
  · intro env path e h
    rw [process_of_extract_error env path e h]
  · intro env path raw e h hws hsumm
    rw [process_of_extract_ok env path raw h]
    simp [finishClaim, hws, summarize_claim, hsumm, Except.map]

theorem model_failure_propagates_witness :
    (process_claim_file envOcrFail "claim.pdf").1 = .error .ocrError :=
  model_failure_propagates.1 envOcrFail "claim.pdf" .ocrError (by decide)

/-- C7: `summarize_claim` passes `do_sample = false` to the summarization
capability, so for any capability whose non-sampling decode ignores the
sampling randomness, repeated calls on identical extracted text return
byte-identical output. -/
theorem repeated_summarization_deterministic
    (cap : String → Nat → Nat → Bool → Nat → Except PyErr String)
    (hdet : ∀ t ml mnl s1 s2, cap t ml mnl false s1 = cap t ml mnl false s2)
    (seed1 seed2 : Nat) (text : String) :
    summarize_claim_seeded cap seed1 text = summarize_claim_seeded cap seed2 text := by
  unfold summarize_claim_seeded summarize_claim summarizer_call
  by_cases h : pyStrip text = ""
  · rw [if_pos h, if_pos h]
  · rw [if_neg h, if_neg h, hdet (pyTake text 3000) 130 40 seed1 seed2]

theorem repeated_summarization_deterministic_witness :
    summarize_claim_seeded capEcho 0 "claim text" = summarize_claim_seeded capEcho 1 "claim text" :=
  repeated_summarization_deterministic capEcho (fun _ _ _ _ _ => rfl) 0 1 "claim text"

/-- C8 (code bug): when the pipeline raises (here: the OCR capability
fails on a text-layer-free PDF), the upload branch exits with the
exception before reaching `os.remove`, so the staged temp file is not
deleted — cleanup happens only on the happy path, not on every exit
path. -/
theorem temp_file_leaked_on_model_failure :
    upload_branch envOcrFail "claim.pdf" true = (.error .ocrError, false) := by
  decide

/-- C9: whenever `process_claim_file` reaches summarization, the raw text
has already passed the strip guard, so `summarize_claim`'s internal
"no text detected" branch never runs from the pipeline: the result is
the model summary and the capability is invoked. -/
theorem nonempty_extraction_reaches_summarizer (env : Env) (path : String) (raw : String)
    (h : rawTextOf env path = some (.ok raw)) (hws : pyStrip raw ≠ "") :
    (process_claim_file env path).1 = (env.summ (pyTake raw 3000)).map pyStrip ∧
    (process_claim_file env path).2.summInvoked = true ∧
    (summarize_claim env.summ raw).2 = true := by
  rw [process_of_extract_ok env path raw h]
  refine ⟨?_, ?_, ?_⟩ <;> simp [finishClaim, summarize_claim, hws]

theorem nonempty_extraction_reaches_summarizer_witness :
    (process_claim_file envTxtHello "claim.txt").1 =
      (envTxtHello.summ (pyTake (String.mk ['h', 'i']) 3000)).map pyStrip ∧
    (process_claim_file envTxtHello "claim.txt").2.summInvoked = true ∧
    (summarize_claim envTxtHello.summ (String.mk ['h', 'i'])).2 = true :=
  nonempty_extraction_reaches_summarizer envTxtHello "claim.txt" (String.mk ['h', 'i'])
    (by decide) (by decide)

/-- C10: a `.txt` file whose bytes are not valid UTF-8 makes
`process_claim_file` propagate the decoding exception — no sentinel is
returned and no capability is invoked. -/
theorem invalid_utf8_txt_raises (env : Env) (path : String)
    (hext : pyLower (pathSuffix path) = ".txt")
    (hdec : utf8Decode env.txtBytes = none) :
    process_claim_file env path = (.error .unicodeDecodeError, ⟨false, false⟩) := by
  have h1 : pyLower (pathSuffix path) ≠ ".pdf" := by rw [hext]; decide
  have h2 : pyLower (pathSuffix path) ∉ ([".jpg", ".jpeg", ".png"] : List String) := by
    rw [hext]; decide
  unfold process_claim_file
  rw [if_neg h1, if_neg h2, if_pos hext, hdec]

theorem invalid_utf8_txt_raises_witness :
    process_claim_file envTxtBad "notes.txt" = (.error .unicodeDecodeError, ⟨false, false⟩) :=
  invalid_utf8_txt_raises envTxtBad "notes.txt" (by decide) (by decide)
